import Mathlib

/-!
Verification of the resizable-panel gesture and layout engine of the
`mobile-ui-react` component library.

The development shallowly embeds the relevant source functions:

* `ResizablePanel` (src/unnamed/part_002): `updateMaxHeight`, `onDragStart`,
  `onDrag`, `onDragEnd`, `onWindowResize`;
* `TouchDragHandle` / `DraggableComponent` (same file): the pointer-move
  drag-start threshold logic;
* `BottomPanel` (src/src/mobile-ui-react/BottomPanel.tsx): the open/close
  effects and the zero-delay-timer ordering of the global panel events;
* `ResizableBottomPanel` (same file): `onAutoCloseHandler`,
  `onResizedHandler`, `onCloseHandler`, `onWindowResize`.

JavaScript numbers are modelled by `JSNum`: NaN, the two infinities, and
finite values as exact rationals.  All operations used by the source
(`-`, `*`, `/`, `Math.abs`, `Math.min`, comparisons, strict equality,
truthiness) are given their JavaScript semantics at this granularity
(negative zero is identified with zero; finite arithmetic is exact).
DOM geometry reads (`clientHeight`, `getBoundingClientRect`, CSS
variables, `window.outerHeight`) are inputs supplied through an
environment record, since the rendering layer is outside the modelled
core.  React `setState` calls are modelled as immediate field updates of
an explicit state record; callbacks into the host (`onResizing`,
`onResized`, `onFlickDown`, the global panel events) are recorded as an
emitted event list, and `setTimeout` registrations as a list of
(delay, task) pairs.
-/

/-- A JavaScript number: NaN, an infinity (`inf true` is positive
infinity), or a finite value represented exactly as a rational. -/
inductive JSNum where
  | nan
  | inf (pos : Bool)
  | fin (q : ℚ)
deriving DecidableEq

namespace JSNum

/-- JavaScript `a + b` (finite arithmetic exact, -0 identified with 0). -/
def add (a b : JSNum) : JSNum :=
  match a, b with
  | nan, _ => nan
  | _, nan => nan
  | inf p, inf q => if p = q then inf p else nan
  | inf p, fin _ => inf p
  | fin _, inf q => inf q
  | fin x, fin y => fin (x + y)

/-- JavaScript `a - b`. -/
def sub (a b : JSNum) : JSNum :=
  match a, b with
  | nan, _ => nan
  | _, nan => nan
  | inf p, inf q => if p = q then nan else inf p
  | inf p, fin _ => inf p
  | fin _, inf q => inf (!q)
  | fin x, fin y => fin (x - y)

/-- JavaScript `a * b`. -/
def mul (a b : JSNum) : JSNum :=
  match a, b with
  | nan, _ => nan
  | _, nan => nan
  | inf p, inf q => inf (p == q)
  | inf p, fin y => if y = 0 then nan else inf (p == decide (0 < y))
  | fin x, inf q => if x = 0 then nan else inf (q == decide (0 < x))
  | fin x, fin y => fin (x * y)

/-- JavaScript `a / b` (division by zero yields a signed infinity,
`0/0` yields NaN; the sign of a zero divisor is not modelled). -/
def div (a b : JSNum) : JSNum :=
  match a, b with
  | nan, _ => nan
  | _, nan => nan
  | inf _, inf _ => nan
  | inf p, fin y => if y = 0 then inf p else inf (p == decide (0 < y))
  | fin _, inf _ => fin 0
  | fin x, fin y =>
    if y = 0 then (if x = 0 then nan else inf (decide (0 < x)))
    else fin (x / y)

/-- JavaScript `a < b`: false whenever either side is NaN. -/
def lt (a b : JSNum) : Bool :=
  match a, b with
  | nan, _ => false
  | _, nan => false
  | inf p, inf q => !p && q
  | inf p, fin _ => !p
  | fin _, inf q => q
  | fin x, fin y => decide (x < y)

/-- JavaScript `a <= b`: false whenever either side is NaN. -/
def le (a b : JSNum) : Bool :=
  match a, b with
  | nan, _ => false
  | _, nan => false
  | inf p, inf q => p == q || (!p && q)
  | inf p, fin _ => !p
  | fin _, inf q => q
  | fin x, fin y => decide (x ≤ y)

/-- JavaScript `a > b`. -/
def gt (a b : JSNum) : Bool := lt b a

/-- JavaScript `a >= b`. -/
def ge (a b : JSNum) : Bool := le b a

/-- JavaScript `Math.abs`. -/
def abs : JSNum → JSNum
  | nan => nan
  | inf _ => inf true
  | fin x => fin (if x < 0 then -x else x)

/-- JavaScript truthiness of a number: NaN and 0 are falsy. -/
def toBool : JSNum → Bool
  | nan => false
  | inf _ => true
  | fin x => decide (x ≠ 0)

/-- JavaScript strict equality `===` on numbers: NaN is not equal to
anything, including itself. -/
def strictEq (a b : JSNum) : Bool :=
  match a, b with
  | nan, _ => false
  | _, nan => false
  | inf p, inf q => p == q
  | fin x, fin y => decide (x = y)
  | _, _ => false

end JSNum

/-- JavaScript `Math.min(a, b)`: NaN if either argument is NaN. -/
def jsMin (a b : JSNum) : JSNum :=
  match a, b with
  | JSNum.nan, _ => JSNum.nan
  | _, JSNum.nan => JSNum.nan
  | _, _ => if a.lt b then a else b

/-- The value held by the panel's `height` state: TypeScript type
`string | number`; the only string this code ever stores is `"100vh"`,
modelled by the dedicated constructor `vh100`. -/
inductive HeightVal where
  | num (n : JSNum)
  | vh100
deriving DecidableEq

/-- The `lastDragInfo` state record `{ dragged, time, speed }` of
`ResizablePanel`. -/
structure DragInfo where
  dragged : JSNum
  time : JSNum
  speed : JSNum
deriving DecidableEq

/-- The return value of the host's `onResized` (and `onAutoClose`)
callback: TypeScript `boolean | number`. -/
inductive RRes where
  | b (val : Bool)
  | n (val : JSNum)
deriving DecidableEq

/-- The props of `ResizablePanel` that the embedded handlers consult.
Optional callbacks are modelled by a Bool recording whether they were
supplied; `flickDownResult` is the value `props.onFlickDown()` returns
when invoked. -/
structure RPProps where
  onFlickDown : Bool
  flickDownResult : Bool
  onResized : Bool
  onResizing : Bool
  minHeight : Option JSNum
  maxHeight : Option JSNum
  heightCanExceedContents : Bool
  flickUpHeight : Option JSNum
deriving DecidableEq

/-- The destructuring default `const { minHeight = 0 } = props`. -/
def effMinHeight (p : RPProps) : JSNum := p.minHeight.getD (JSNum.fin 0)

/-- The ambient browser environment read by the handlers: whether
`divRef.current` is attached, the geometry reads, `Date.now()`, the CSS
animation-duration variable (seconds), and the value the host's
`onResized` callback returns when invoked. -/
structure Env where
  divAttached : Bool
  clientHeight : JSNum
  rectTop : JSNum
  optimalExtra : JSNum
  outerHeight : JSNum
  safeTop : JSNum
  safeBottom : JSNum
  now : JSNum
  animDur : JSNum
  onResizedResult : RRes
deriving DecidableEq

/-- The React state of one `ResizablePanel` instance. -/
structure RPState where
  height : Option HeightVal
  startHeight : JSNum
  startTop : JSNum
  maxHeight : Option JSNum
  lastDragInfo : DragInfo
  flickingUp : Bool
deriving DecidableEq

/-- Host callbacks invoked synchronously by the `ResizablePanel`
handlers.  `resized h t flick` records an `onResized(h, t)` call, with
`flick = true` when it was made from the flick branch of `onDragEnd`
and `false` when made from the ordinary release branch. -/
inductive RPEvent where
  | resizing (top : JSNum)
  | resized (height top : JSNum) (flick : Bool)
  | flickDownCall
deriving DecidableEq

/-- A closure passed to `setTimeout` by the handlers. -/
inductive RPTask where
  | setHeightNum (h : JSNum)
  | flickUpFinish
deriving DecidableEq

/-- Result of running one handler: the next state, the host callbacks
invoked synchronously (in order), and the timers registered. -/
structure RPStep where
  state : RPState
  events : List RPEvent
  timers : List (JSNum × RPTask)
deriving DecidableEq

/-- `window.outerHeight - 100 - safeAreaOffsets`, the viewport-derived
bound used by `updateMaxHeight` and `onWindowResize`. -/
def viewportBound (env : Env) : JSNum :=
  (env.outerHeight.sub (JSNum.fin 100)).sub (env.safeTop.add env.safeBottom)

/-- `ResizablePanel.updateMaxHeight`: the new `maxHeight` value, the
minimum of the viewport-derived bound, the content-derived candidate
(unless `heightCanExceedContents`), and the truthy `maxHeight` prop. -/
def updateMaxHeightVal (p : RPProps) (env : Env) (newMaxHeight : JSNum) : JSNum :=
  let v0 := viewportBound env
  let v1 := if p.heightCanExceedContents then v0 else jsMin newMaxHeight v0
  match p.maxHeight with
  | some m => if m.toBool then jsMin v1 m else v1
  | none => v1

/-- `updateMaxHeight` as a state update (`setMaxHeight(newVal)`). -/
def updateMaxHeightSt (p : RPProps) (env : Env) (st : RPState) (newMaxHeight : JSNum) : RPState :=
  { st with maxHeight := some (updateMaxHeightVal p env newMaxHeight) }

/-- `getOptimalHeight`: the div's client height plus the trailing
child's extra scrollable height (the latter abstracted as an
environment input), or 0 when the ref is not attached. -/
def getOptimalHeight (env : Env) : JSNum :=
  if env.divAttached then env.clientHeight.add env.optimalExtra else JSNum.fin 0

/-- `ResizablePanel.onDragStart`: reset the velocity sample when flick
gestures are enabled, then (only if the ref is attached) snapshot
`startHeight`/`startTop` and recompute `maxHeight` from the optimal
height. -/
def onDragStart (p : RPProps) (env : Env) (st : RPState) : RPState :=
  let st1 := if p.onFlickDown then
    { st with lastDragInfo := ⟨JSNum.fin 0, env.now, JSNum.fin 0⟩ } else st
  if env.divAttached then
    updateMaxHeightSt p env
      { st1 with startHeight := env.clientHeight, startTop := env.rectTop }
      (getOptimalHeight env)
  else st1

/-- The velocity-sampling prefix of `ResizablePanel.onDrag`: when flick
gestures are enabled and the displacement changed (strictly) since the
last sample, record `{ dragged, time: now, speed: dist/time }`. -/
def updateVelocity (p : RPProps) (env : Env) (st : RPState) (dragged : JSNum) : RPState :=
  if p.onFlickDown then
    let dist := dragged.sub st.lastDragInfo.dragged
    if dist ≠ JSNum.fin 0 then
      { st with lastDragInfo :=
          ⟨dragged, env.now, dist.div (env.now.sub st.lastDragInfo.time)⟩ }
    else st
  else st

/-- The height-updating suffix of `ResizablePanel.onDrag`: with a truthy
`startHeight`, the candidate `startHeight - dragged` is stored (and
`onResizing` invoked when the ref is attached) only when it is `>=`
`minHeight`. -/
def applyDragHeight (p : RPProps) (env : Env) (st : RPState) (dragged : JSNum) :
    RPState × List RPEvent :=
  if st.startHeight.toBool then
    let newHeight := st.startHeight.sub dragged
    if newHeight.ge (effMinHeight p) then
      ({ st with height := some (HeightVal.num newHeight) },
       if env.divAttached && p.onResizing then [RPEvent.resizing env.rectTop] else [])
    else (st, [])
  else (st, [])

/-- `ResizablePanel.onDrag`. -/
def onDrag (p : RPProps) (env : Env) (st : RPState) (dragged : JSNum) : RPStep :=
  let st1 := updateVelocity p env st dragged
  let r := applyDragHeight p env st1 dragged
  ⟨r.1, r.2, []⟩

/-- `props.flickUpHeight ?? "100vh"`. -/
def flickUpHeightVal (p : RPProps) : HeightVal :=
  match p.flickUpHeight with
  | some h => HeightVal.num h
  | none => HeightVal.vh100

/-- `(getCssVariableAsNumber("--mui-bottom-panel-animation-duration") * 1000) + 50`. -/
def delayTime (env : Env) : JSNum :=
  (env.animDur.mul (JSNum.fin 1000)).add (JSNum.fin 50)

/-- `result !== undefined && result !== false` for a value of type
`boolean | number`: every number (including 0 and NaN) passes. -/
def resultCancels : RRes → Bool
  | RRes.b v => v
  | RRes.n _ => true

/-- `typeof result === "number" ? result : 0`. -/
def resultDelay : RRes → JSNum
  | RRes.b _ => JSNum.fin 0
  | RRes.n x => x

/-- The flick branch of `ResizablePanel.onDragEnd` (taken when flick
gestures are enabled and `Math.abs(speed) > 0.5`). -/
def flickDragEnd (p : RPProps) (env : Env) (st : RPState) : RPStep :=
  if st.lastDragInfo.speed.lt (JSNum.fin 0) then
    ⟨{ st with flickingUp := true, height := some (flickUpHeightVal p) },
     [], [(delayTime env, RPTask.flickUpFinish)]⟩
  else
    let evs := (if p.onResized then [RPEvent.resized st.startHeight st.startTop true] else [])
      ++ [RPEvent.flickDownCall]
    if p.flickDownResult then
      ⟨st, evs, [(delayTime env, RPTask.setHeightNum st.startHeight)]⟩
    else ⟨st, evs, []⟩

/-- The ordinary release branch of `ResizablePanel.onDragEnd`. -/
def ordinaryDragEnd (p : RPProps) (env : Env) (st : RPState) : RPStep :=
  if env.divAttached then
    let newHeight := env.clientHeight
    if newHeight.strictEq st.startHeight then ⟨st, [], []⟩
    else if p.onResized then
      let result := env.onResizedResult
      if resultCancels result then
        let delay := resultDelay result
        if delay.toBool then
          ⟨st, [RPEvent.resized newHeight env.rectTop false],
           [(delay, RPTask.setHeightNum st.startHeight)]⟩
        else
          ⟨{ st with height := some (HeightVal.num st.startHeight) },
           [RPEvent.resized newHeight env.rectTop false], []⟩
      else
        ⟨updateMaxHeightSt p env st newHeight,
         [RPEvent.resized newHeight env.rectTop false], []⟩
    else ⟨updateMaxHeightSt p env st newHeight, [], []⟩
  else ⟨st, [], []⟩

/-- `ResizablePanel.onDragEnd`. -/
def onDragEnd (p : RPProps) (env : Env) (st : RPState) : RPStep :=
  if p.onFlickDown && st.lastDragInfo.speed.abs.gt (JSNum.fin (1/2)) then
    flickDragEnd p env st
  else ordinaryDragEnd p env st

/-- The body of `ResizablePanel.onWindowResize` (run inside a
zero-delay timer with a mounted guard): lower `maxHeight` to the
viewport-derived bound when it exceeds it. -/
def rpOnWindowResize (env : Env) (st : RPState) : RPState :=
  let newMaxHeight := viewportBound env
  match st.maxHeight with
  | some m => if m.gt newMaxHeight then { st with maxHeight := some newMaxHeight } else st
  | none => st

/-! ## TouchDragHandle / DraggableComponent -/

/-- A touch point `{clientX, clientY}`, with finite coordinates. -/
structure Pt where
  x : ℚ
  y : ℚ
deriving DecidableEq

/-- The square of the Euclidean distance between two points.  The
source compares `current.distance(initial) >= 6`; over the rationals
this is equivalent to comparing the squared distance with 36. -/
def distSq (a b : Pt) : ℚ := (a.x - b.x) * (a.x - b.x) + (a.y - b.y) * (a.y - b.y)

/-- The combined state of one `TouchDragHandle` and the
`DraggableComponent` wrapping it: the handle's `_initial` point and
`isPointerDown` flag, and the wrapper's `lastPosition` state (which the
wrapper feeds back into the handle as a prop). -/
structure DragHandleState where
  initial : Option Pt
  lastPosition : Option Pt
  isPointerDown : Bool
deriving DecidableEq

/-- Drag-protocol callbacks forwarded out of `DraggableComponent`. -/
inductive DragEv where
  | dragStart (p : Pt)
  | dragMove (d : Pt)
  | dragEnd
deriving DecidableEq

/-- `TouchDragHandle._handlePointerDown`: ignored unless exactly one
touch; otherwise records the initial point and the pressed flag. -/
def handlePointerDown (st : DragHandleState) (touches : Nat) (p : Pt) : DragHandleState :=
  if touches ≠ 1 then st
  else { st with isPointerDown := true, initial := some p }

/-- `TouchDragHandle._handlePointerMove` composed with
`DraggableComponent`: with `lastPosition` established, forward the
displacement `current - lastPosition`; otherwise fire
`onDragStart(initial)` — which makes the wrapper store
`lastPosition := initial` — once the squared distance from the initial
point reaches 36 (i.e. distance >= 6). -/
def handlePointerMove (st : DragHandleState) (touches : Nat) (p : Pt) :
    DragHandleState × List DragEv :=
  if touches ≠ 1 then (st, [])
  else
    match st.lastPosition with
    | some lp => (st, [DragEv.dragMove ⟨p.x - lp.x, p.y - lp.y⟩])
    | none =>
      match st.initial with
      | some init =>
        if distSq p init ≥ 36 then
          ({ st with lastPosition := some init }, [DragEv.dragStart init])
        else (st, [])
      | none => (st, [])

/-- `TouchCaptor.isTouchStarted`:
`lastPosition === undefined ? isPointerDown : true`. -/
def isTouchStarted (st : DragHandleState) : Bool :=
  match st.lastPosition with
  | none => st.isPointerDown
  | some _ => true

/-- A document `touchmove` as delivered through `TouchCaptor`, which
drops the event when no touch is started. -/
def onTouchMove (st : DragHandleState) (touches : Nat) (p : Pt) :
    DragHandleState × List DragEv :=
  if isTouchStarted st then handlePointerMove st touches p else (st, [])

/-- `TouchDragHandle._handlePointerUp` composed with
`DraggableComponent`: clear the pressed flag and the initial point;
when a drag was started (`lastPosition` present), fire `onDragEnd`,
which clears `lastPosition`. -/
def handlePointerUp (st : DragHandleState) : DragHandleState × List DragEv :=
  let st1 := { st with isPointerDown := false, initial := (none : Option Pt) }
  match st.lastPosition with
  | some _ => ({ st1 with lastPosition := none }, [DragEv.dragEnd])
  | none => (st1, [])

/-- Run a sequence of touch-move events (each a touch count and a
point) through the handle, collecting the drag events in order. -/
def runMoves (st : DragHandleState) (moves : List (Nat × Pt)) :
    DragHandleState × List DragEv :=
  match moves with
  | [] => (st, [])
  | m :: ms =>
    let r := onTouchMove st m.1 m.2
    let rest := runMoves r.1 ms
    (rest.1, r.2 ++ rest.2)

/-- Whether a drag event is a drag-start. -/
def isStartEv : DragEv → Bool
  | DragEv.dragStart _ => true
  | _ => false

/-! ## BottomPanel open/close effects and global event ordering -/

/-- A global bottom-panel event as emitted on
`BottomPanelEvents.onClose` and `BottomPanelEvents.onOpen`, tagged with
a panel identifier. -/
inductive GlobalEvent where
  | panelClosed (id : Nat) (height top : JSNum)
  | panelOpened (id : Nat) (height top : JSNum)
deriving DecidableEq

/-- One execution of a `BottomPanel` open- or close-effect during a
synchronous render pass: the panel's identifier, which of the two
effects it is, and the values the effect body reads (`opened` state,
`isOpen` prop, `ref.current` attachment, `clientHeight`, `oldTop`). -/
structure PanelEff where
  id : Nat
  isOpenEff : Bool
  opened : Bool
  isOpen : Bool
  refAttached : Bool
  clientHeight : JSNum
  oldTop : Option JSNum
deriving DecidableEq

/-- The global closed event synchronously emitted by the close effect
(`opened && ref.current && !isOpen`, with `oldTop` defined):
`{height, top: oldTop + height}`. -/
def closeEmit (e : PanelEff) : Option GlobalEvent :=
  if e.opened && e.refAttached && !e.isOpen then
    match e.oldTop with
    | some t => some (GlobalEvent.panelClosed e.id e.clientHeight (t.add e.clientHeight))
    | none => none
  else none

/-- The global opened event the open effect schedules on a zero-delay
timer (`!opened && ref.current && isOpen`, with `oldTop` defined):
`{height, top: oldTop - height}`. -/
def openEmit (e : PanelEff) : Option GlobalEvent :=
  if !e.opened && e.refAttached && e.isOpen then
    match e.oldTop with
    | some t => some (GlobalEvent.panelOpened e.id e.clientHeight (t.sub e.clientHeight))
    | none => none
  else none

/-- Event-loop step for one effect: a close effect appends its emission
to the synchronous output, an open effect enqueues its emission on the
zero-delay timer queue. -/
def effStep (acc : List GlobalEvent × List GlobalEvent) (e : PanelEff) :
    List GlobalEvent × List GlobalEvent :=
  if e.isOpenEff then
    match openEmit e with
    | some ev => (acc.1, acc.2 ++ [ev])
    | none => acc
  else
    match closeEmit e with
    | some ev => (acc.1 ++ [ev], acc.2)
    | none => acc

/-- The global events observed from one synchronous event-handling
pass: the effects run in order, then the zero-delay timers flush in
FIFO order after the synchronous pass completes. -/
def runPass (effs : List PanelEff) : List GlobalEvent :=
  let r := effs.foldl effStep ([], [])
  r.1 ++ r.2

/-- The synchronous emissions of a pass, in order. -/
def syncEvents : List PanelEff → List GlobalEvent
  | [] => []
  | e :: es => (if e.isOpenEff then [] else (closeEmit e).toList) ++ syncEvents es

/-- The deferred (zero-delay timer) emissions of a pass, in order. -/
def deferredEvents : List PanelEff → List GlobalEvent
  | [] => []
  | e :: es => (if e.isOpenEff then (openEmit e).toList else []) ++ deferredEvents es

/-- Whether a global event is a closed event. -/
def isClosedEv : GlobalEvent → Bool
  | GlobalEvent.panelClosed _ _ _ => true
  | _ => false

/-- Whether a global event is an opened event. -/
def isOpenedEv : GlobalEvent → Bool
  | GlobalEvent.panelOpened _ _ _ => true
  | _ => false

/-! ## ResizableBottomPanel -/

/-- The props of `ResizableBottomPanel` consulted by the embedded
handlers.  Callback props are a Bool (supplied or not) plus the value
they return when invoked. -/
structure RBPProps where
  isOpen : Bool
  onAutoClose : Bool
  autoCloseResult : RRes
  autoCloseHeight : Option JSNum
  onResized : Bool
  onResizedResult : RRes
  onClose : Bool
deriving DecidableEq

/-- The destructuring default `autoCloseHeight = 110`. -/
def effAutoCloseHeight (p : RBPProps) : JSNum := p.autoCloseHeight.getD (JSNum.fin 110)

/-- The `ResizableBottomPanel` state consulted here: the `autoClosed`
flag. -/
structure RBPState where
  autoClosed : Bool
deriving DecidableEq

/-- Calls made by the `ResizableBottomPanel` handlers. -/
inductive RBPEvent where
  | emitResize (height top : JSNum)
  | callAutoClose
  | callHostResized (height top : JSNum)
  | callHostClose (height : JSNum)
deriving DecidableEq

/-- `ResizableBottomPanel.onAutoCloseHandler`: returns false when no
`onAutoClose` prop is supplied; otherwise sets the `autoClosed` flag
and returns the host callback's result. -/
def onAutoCloseHandler (p : RBPProps) (st : RBPState) : RBPState × List RBPEvent × RRes :=
  if p.onAutoClose then
    ({ st with autoClosed := true }, [RBPEvent.callAutoClose], p.autoCloseResult)
  else (st, [], RRes.b false)

/-- `return onResized?.(currentHeight, top) ?? false`. -/
def hostResized (p : RBPProps) (st : RBPState) (pre : List RBPEvent)
    (currentHeight top : JSNum) : RBPState × List RBPEvent × RRes :=
  if p.onResized then
    (st, pre ++ [RBPEvent.callHostResized currentHeight top], p.onResizedResult)
  else (st, pre, RRes.b false)

/-- `ResizableBottomPanel.onResizedHandler`. -/
def onResizedHandler (p : RBPProps) (st : RBPState) (currentHeight top : JSNum) :
    RBPState × List RBPEvent × RRes :=
  if p.isOpen then
    let pre := [RBPEvent.emitResize currentHeight top]
    if p.onAutoClose && currentHeight.le (effAutoCloseHeight p) then
      let r := onAutoCloseHandler p st
      (r.1, pre ++ r.2.1, r.2.2)
    else hostResized p st pre currentHeight top
  else hostResized p st [] currentHeight top

/-- `ResizableBottomPanel.onCloseHandler`: forward `onClose` unless the
close was triggered by the auto-close path, and clear the flag. -/
def onCloseHandler (p : RBPProps) (st : RBPState) (closeHeight : JSNum) :
    RBPState × List RBPEvent :=
  let evs := if !st.autoClosed && p.onClose then [RBPEvent.callHostClose closeHeight] else []
  ({ st with autoClosed := false }, evs)

/-- The props of `ResizableBottomPanel` consulted by its
`onWindowResize` handler. -/
structure RBPWProps where
  isOpen : Bool
  maxHeightProp : Option JSNum
  maxInitialHeight : Option JSNum
deriving DecidableEq

/-- The environment read by `ResizableBottomPanel.onWindowResize`. -/
structure RBPWEnv where
  refAttached : Bool
  rectTop : JSNum
  rectBottom : JSNum
  rectHeight : JSNum
  styleMaxHeight : JSNum
  outerHeight : JSNum
deriving DecidableEq

/-- A closure `ResizableBottomPanel.onWindowResize` passes to
`setTimeout`: re-firing the resize handlers with the then-current
rendered geometry. -/
inductive RBPTask where
  | fireResizedHandler
deriving DecidableEq

/-- `updateCalculatedInitialHeight`. -/
def updateCalculatedInitialHeight (env : RBPWEnv) : JSNum :=
  let bottomOffset := env.outerHeight.sub
    (if env.rectBottom.gt env.outerHeight then env.rectTop else env.rectBottom)
  (env.outerHeight.div (JSNum.fin 2)).sub bottomOffset

/-- `ResizableBottomPanel.onWindowResize`: refresh
`calculatedInitialHeight` and `maxHeight` where applicable, and — when
the panel is open — schedule the resize handlers to re-fire after a
fixed 500ms settle delay.  Returns the new `calculatedInitialHeight`,
the new `maxHeight` state, and the registered timers. -/
def rbpOnWindowResize (p : RBPWProps) (env : RBPWEnv)
    (calcInit maxH : Option JSNum) :
    Option JSNum × Option JSNum × List (JSNum × RBPTask) :=
  let calcInit1 := if env.refAttached && p.maxInitialHeight.isNone && calcInit.isSome
    then some (updateCalculatedInitialHeight env) else calcInit
  let maxH1 := if env.refAttached && p.maxHeightProp.isNone
    then some env.styleMaxHeight else maxH
  let timers := if p.isOpen then [((JSNum.fin 500 : JSNum), RBPTask.fireResizedHandler)] else []
  (calcInit1, maxH1, timers)

/-! ## Derived predicates -/

/-- The clamp invariant on the `height` state: every numeric height
stored is `>=` the given minimum (string and absent heights are
unconstrained, as in the source). -/
def heightAtLeast (h : Option HeightVal) (m : JSNum) : Prop :=
  ∀ n, h = some (HeightVal.num n) → n.ge m = true

/-- Whether an event records an `onResized` invocation. -/
def isResizedEv : RPEvent → Bool
  | RPEvent.resized _ _ _ => true
  | _ => false

/-- Number of `onResized` invocations recorded in an event list. -/
def countResized (evs : List RPEvent) : Nat := evs.countP isResizedEv

/-! ## Concrete instances used by witnesses and counterexamples -/

/-- A `ResizablePanel` props instance with flick gestures and all
callbacks supplied, `minHeight` 40. -/
def pDrag : RPProps :=
  { onFlickDown := true, flickDownResult := true, onResized := true, onResizing := true,
    minHeight := some (JSNum.fin 40), maxHeight := none,
    heightCanExceedContents := false, flickUpHeight := none }

/-- An environment with the ref attached. -/
def envA : Env :=
  { divAttached := true, clientHeight := JSNum.fin 200, rectTop := JSNum.fin 500,
    optimalExtra := JSNum.fin 0, outerHeight := JSNum.fin 800,
    safeTop := JSNum.fin 0, safeBottom := JSNum.fin 0,
    now := JSNum.fin 1000, animDur := JSNum.fin (1/4), onResizedResult := RRes.b false }

/-- A mid-drag state: snapshot 300/400, last sampled speed 1. -/
def stA : RPState :=
  { height := some (HeightVal.num (JSNum.fin 300)), startHeight := JSNum.fin 300,
    startTop := JSNum.fin 400, maxHeight := some (JSNum.fin 600),
    lastDragInfo := ⟨JSNum.fin 0, JSNum.fin 0, JSNum.fin 1⟩, flickingUp := false }

/-- A state whose last velocity sample was taken at time 5 with
accumulated displacement 0. -/
def stB : RPState :=
  { stA with lastDragInfo := ⟨JSNum.fin 0, JSNum.fin 5, JSNum.fin 0⟩ }

/-- An environment whose clock reads 5 (same millisecond as `stB`'s
last sample). -/
def envB : Env := { envA with now := JSNum.fin 5 }

/-- Props for the ordinary drag-end evaluation: no flick gestures,
`onResized` supplied. -/
def pC2 : RPProps :=
  { onFlickDown := false, flickDownResult := false, onResized := true, onResizing := false,
    minHeight := none, maxHeight := none,
    heightCanExceedContents := false, flickUpHeight := none }

/-- Environment for the ordinary drag-end evaluation: rendered height
200, and the host's `onResized` returns the number 0. -/
def envC2 : Env :=
  { divAttached := true, clientHeight := JSNum.fin 200, rectTop := JSNum.fin 50,
    optimalExtra := JSNum.fin 0, outerHeight := JSNum.fin 800,
    safeTop := JSNum.fin 0, safeBottom := JSNum.fin 0,
    now := JSNum.fin 0, animDur := JSNum.fin 0, onResizedResult := RRes.n (JSNum.fin 0) }

/-- State for the ordinary drag-end evaluation: drag started at height
300. -/
def stC2 : RPState :=
  { height := some (HeightVal.num (JSNum.fin 200)), startHeight := JSNum.fin 300,
    startTop := JSNum.fin 100, maxHeight := some (JSNum.fin 600),
    lastDragInfo := ⟨JSNum.fin 0, JSNum.fin 0, JSNum.fin 0⟩, flickingUp := false }

/-- Props with an explicit `maxHeight` prop of 500 for the window-resize
counterexample. -/
def pC8 : RPProps :=
  { onFlickDown := false, flickDownResult := false, onResized := false, onResizing := false,
    minHeight := none, maxHeight := some (JSNum.fin 500),
    heightCanExceedContents := false, flickUpHeight := none }

/-- Environment for the window-resize counterexample: viewport bound
`700 - 100 - 0 = 600`, content-derived height 550. -/
def envC8 : Env :=
  { divAttached := true, clientHeight := JSNum.fin 550, rectTop := JSNum.fin 0,
    optimalExtra := JSNum.fin 0, outerHeight := JSNum.fin 700,
    safeTop := JSNum.fin 0, safeBottom := JSNum.fin 0,
    now := JSNum.fin 0, animDur := JSNum.fin 0, onResizedResult := RRes.b false }

/-- State with a current `maxHeight` of 400, below the viewport bound. -/
def stC8 : RPState :=
  { height := none, startHeight := JSNum.fin 0, startTop := JSNum.fin 0,
    maxHeight := some (JSNum.fin 400),
    lastDragInfo := ⟨JSNum.fin 0, JSNum.fin 0, JSNum.fin 0⟩, flickingUp := false }

/-- State with a current `maxHeight` of 650, above the viewport bound
of `envC8`. -/
def stW8 : RPState := { stC8 with maxHeight := some (JSNum.fin 650) }

/-- `ResizableBottomPanel` window-resize props: open panel, no
`maxHeight` or `maxInitialHeight` props. -/
def pW8 : RBPWProps := { isOpen := true, maxHeightProp := none, maxInitialHeight := none }

/-- A window-resize environment for the bottom panel wrapper. -/
def wenvW8 : RBPWEnv :=
  { refAttached := true, rectTop := JSNum.fin 300, rectBottom := JSNum.fin 700,
    rectHeight := JSNum.fin 400, styleMaxHeight := JSNum.fin 620, outerHeight := JSNum.fin 700 }

/-- Props for the no-ref trace: flick gestures and `onResized`
supplied, flick-down handler returning false. -/
def pC9 : RPProps :=
  { onFlickDown := true, flickDownResult := false, onResized := true, onResizing := true,
    minHeight := none, maxHeight := none,
    heightCanExceedContents := false, flickUpHeight := none }

/-- Environment with the ref never attached, clock at 0. -/
def envC9a : Env :=
  { divAttached := false, clientHeight := JSNum.fin 0, rectTop := JSNum.fin 0,
    optimalExtra := JSNum.fin 0, outerHeight := JSNum.fin 800,
    safeTop := JSNum.fin 0, safeBottom := JSNum.fin 0,
    now := JSNum.fin 0, animDur := JSNum.fin 0, onResizedResult := RRes.b false }

/-- The same ref-less environment with the clock at 10. -/
def envC9b : Env := { envC9a with now := JSNum.fin 10 }

/-- The pristine mount state: no height, no snapshot. -/
def st0C9 : RPState :=
  { height := none, startHeight := JSNum.fin 0, startTop := JSNum.fin 0, maxHeight := none,
    lastDragInfo := ⟨JSNum.fin 0, JSNum.fin 0, JSNum.fin 0⟩, flickingUp := false }

/-- State after a drag-start with the ref absent. -/
def st1C9 : RPState := onDragStart pC9 envC9a st0C9

/-- State after a subsequent `onDrag(10)` at time 10 (velocity sample
becomes 1, still no snapshot, ref still absent). -/
def st2C9 : RPState := (onDrag pC9 envC9b st1C9 (JSNum.fin 10)).state

/-- Props with no callbacks at all, for the no-ref no-op witness. -/
def pW9 : RPProps :=
  { onFlickDown := false, flickDownResult := false, onResized := false, onResizing := false,
    minHeight := none, maxHeight := none,
    heightCanExceedContents := false, flickUpHeight := none }

/-- The initial point of the touch-session witness. -/
def p0W4 : Pt := ⟨0, 0⟩

/-- Three single-touch moves; only the second is at distance >= 6 from
the origin. -/
def movesW4 : List (Nat × Pt) := [(1, ⟨0, 3⟩), (1, ⟨0, 10⟩), (1, ⟨0, 12⟩)]

/-- A close-effect execution for a displaced panel A. -/
def effCloseW5 : PanelEff :=
  { id := 0, isOpenEff := false, opened := true, isOpen := false, refAttached := true,
    clientHeight := JSNum.fin 200, oldTop := some (JSNum.fin 300) }

/-- An open-effect execution for the newly opened panel B. -/
def effOpenW5 : PanelEff :=
  { id := 1, isOpenEff := true, opened := false, isOpen := true, refAttached := true,
    clientHeight := JSNum.fin 150, oldTop := some (JSNum.fin 640) }

/-- One synchronous pass in which B's open effect happens to run before
A's close effect. -/
def effsW5 : List PanelEff := [effOpenW5, effCloseW5]

/-- `ResizableBottomPanel` props with `onAutoClose`, `onResized` and
`onClose` supplied and the panel open; `autoCloseHeight` left at its
default 110. -/
def pW6 : RBPProps :=
  { isOpen := true, onAutoClose := true, autoCloseResult := RRes.b true,
    autoCloseHeight := none, onResized := true, onResizedResult := RRes.b false,
    onClose := true }

/-! ## Helper lemmas -/

/-- NaN is `>=` nothing. -/
theorem jsnum_ge_nan_left (m : JSNum) : JSNum.ge JSNum.nan m = false := by
  cases m <;> rfl

/-- A number `> 0` is not `< 0`. -/
theorem jsnum_not_lt_zero_of_gt_zero (a : JSNum) (h : a.gt (JSNum.fin 0) = true) :
    a.lt (JSNum.fin 0) = false := by
  cases a with
  | nan => simp [JSNum.gt, JSNum.lt] at h
  | inf p =>
    simp [JSNum.gt, JSNum.lt] at h
    simp [JSNum.lt, h]
  | fin x =>
    simp [JSNum.gt, JSNum.lt] at h
    simp [JSNum.lt]
    linarith

/-- `updateVelocity` touches only `lastDragInfo`. -/
theorem updateVelocity_fields (p : RPProps) (env : Env) (st : RPState) (d : JSNum) :
    (updateVelocity p env st d).height = st.height ∧
    (updateVelocity p env st d).startHeight = st.startHeight ∧
    (updateVelocity p env st d).startTop = st.startTop ∧
    (updateVelocity p env st d).maxHeight = st.maxHeight ∧
    (updateVelocity p env st d).flickingUp = st.flickingUp := by
  simp only [updateVelocity]
  split_ifs <;> simp

/-- `applyDragHeight` touches only `height`. -/
theorem applyDragHeight_fields (p : RPProps) (env : Env) (st : RPState) (d : JSNum) :
    (applyDragHeight p env st d).1.startHeight = st.startHeight ∧
    (applyDragHeight p env st d).1.startTop = st.startTop ∧
    (applyDragHeight p env st d).1.maxHeight = st.maxHeight ∧
    (applyDragHeight p env st d).1.lastDragInfo = st.lastDragInfo ∧
    (applyDragHeight p env st d).1.flickingUp = st.flickingUp := by
  simp only [applyDragHeight]
  split_ifs <;> simp

/-! ## Claim theorems -/

/-- C1: during an active drag with a truthy `startHeight` snapshot (ref
attached, `onResizing` supplied), an `onDrag` with displacement `d`
forms the candidate `startHeight - d`; if the candidate is `>=`
`minHeight` the height is set to it and `onResizing` fires, otherwise
nothing happens (in particular a NaN candidate, whose comparison is
false, never updates the height); consequently `currentHeight >=
minHeight` is preserved by every `onDrag`. -/
theorem c1_onDrag_clamp_invariant (p : RPProps) (env : Env) (st : RPState) (d : JSNum)
    (hs : st.startHeight.toBool = true) (hd : env.divAttached = true)
    (hr : p.onResizing = true) :
    (((st.startHeight.sub d).ge (effMinHeight p) = true →
        (onDrag p env st d).state.height = some (HeightVal.num (st.startHeight.sub d)) ∧
        (onDrag p env st d).events = [RPEvent.resizing env.rectTop]) ∧
      ((st.startHeight.sub d).ge (effMinHeight p) = false →
        (onDrag p env st d).state.height = st.height ∧
        (onDrag p env st d).events = []) ∧
      (st.startHeight.sub d = JSNum.nan →
        (onDrag p env st d).state.height = st.height ∧
        (onDrag p env st d).events = [])) ∧
    (heightAtLeast st.height (effMinHeight p) →
      heightAtLeast (onDrag p env st d).state.height (effMinHeight p)) := by
  have hv := updateVelocity_fields p env st d
  have hstate : (onDrag p env st d).state =
      (applyDragHeight p env (updateVelocity p env st d) d).1 := rfl
  have hevents : (onDrag p env st d).events =
      (applyDragHeight p env (updateVelocity p env st d) d).2 := rfl
  by_cases hge : (st.startHeight.sub d).ge (effMinHeight p) = true
  · have happ : applyDragHeight p env (updateVelocity p env st d) d =
        ({ updateVelocity p env st d with
            height := some (HeightVal.num (st.startHeight.sub d)) },
          [RPEvent.resizing env.rectTop]) := by
      simp only [applyDragHeight, hv.2.1, hs, hge, hd, hr, if_true, Bool.and_self]
    refine ⟨⟨?_, ?_, ?_⟩, ?_⟩
    · intro _
      rw [hstate, hevents, happ]
      exact ⟨rfl, rfl⟩
    · intro hcon
      rw [hge] at hcon
      cases hcon
    · intro hnan
      have : (st.startHeight.sub d).ge (effMinHeight p) = false := by
        rw [hnan]; exact jsnum_ge_nan_left _
      rw [hge] at this
      cases this
    · intro _ n hn
      rw [hstate, happ] at hn
      simp only at hn
      cases hn
      exact hge
  · rw [Bool.not_eq_true] at hge
    have happ : applyDragHeight p env (updateVelocity p env st d) d =
        (updateVelocity p env st d, []) := by
      simp only [applyDragHeight, hv.2.1, hge]
      split_ifs <;> first | rfl | exact False.elim (by assumption)
    refine ⟨⟨?_, ?_, ?_⟩, ?_⟩
    · intro hcon
      rw [hge] at hcon
      cases hcon
    · intro _
      rw [hstate, hevents, happ]
      exact ⟨hv.1, rfl⟩
    · intro _
      rw [hstate, hevents, happ]
      exact ⟨hv.1, rfl⟩
    · intro hinv
      rw [hstate, happ, hv.1]
      exact hinv

/-- C2 evaluated at the failing input: on an ordinary drag-end with
rendered height 200 differing from `startHeight` 300, the host's
`onResized` returning the number 0 makes the code restore
`currentHeight` to `startHeight` immediately and skip the `maxHeight`
recomputation — whereas the claim (and the source's own doc comment,
"true or a non-zero number to cancel the resize") says a 0/falsy result
accepts the resize and recomputes `maxHeight` (here to 200). -/
theorem c2_zero_result_restores :
    onDragEnd pC2 envC2 stC2 =
      ⟨{ stC2 with height := some (HeightVal.num (JSNum.fin 300)) },
        [RPEvent.resized (JSNum.fin 200) (JSNum.fin 50) false], []⟩ ∧
    (onDragEnd pC2 envC2 stC2).state.maxHeight = some (JSNum.fin 600) ∧
    updateMaxHeightVal pC2 envC2 (JSNum.fin 200) = JSNum.fin 200 := by
  refine ⟨?_, ?_, ?_⟩ <;> with_unfolding_all rfl

/-- When flick gestures are enabled and the sampled speed exceeds the
threshold, `onDragEnd` is the flick branch. -/
theorem onDragEnd_flick_eq (p : RPProps) (env : Env) (st : RPState)
    (hguard : (p.onFlickDown && st.lastDragInfo.speed.abs.gt (JSNum.fin (1/2))) = true) :
    onDragEnd p env st = flickDragEnd p env st := by
  unfold onDragEnd
  rw [hguard]
  rfl

/-- The flick branch never emits an ordinary-branch `onResized`, emits
at most one `onResized`, and never touches `maxHeight`. -/
theorem flickDragEnd_spec (p : RPProps) (env : Env) (st : RPState) :
    (∀ h t, RPEvent.resized h t false ∉ (flickDragEnd p env st).events) ∧
    countResized (flickDragEnd p env st).events ≤ 1 ∧
    (flickDragEnd p env st).state.maxHeight = st.maxHeight := by
  simp only [flickDragEnd]
  split_ifs <;>
    simp [countResized, isResizedEv, List.countP_cons, List.countP_nil, List.countP_append]

/-- C3: on a drag-end with flick gestures enabled (`onFlickDown`
supplied) and the last sampled speed of magnitude above 0.5, exactly
the flick branch runs: the ordinary release branch is skipped, at most
one `onResized` call is made, and `maxHeight` is not recomputed. -/
theorem c3_flick_priority (p : RPProps) (env : Env) (st : RPState)
    (hf : p.onFlickDown = true)
    (habs : st.lastDragInfo.speed.abs.gt (JSNum.fin (1/2)) = true) :
    onDragEnd p env st = flickDragEnd p env st ∧
    (∀ h t, RPEvent.resized h t false ∉ (onDragEnd p env st).events) ∧
    countResized (onDragEnd p env st).events ≤ 1 ∧
    (onDragEnd p env st).state.maxHeight = st.maxHeight := by
  have heq : onDragEnd p env st = flickDragEnd p env st :=
    onDragEnd_flick_eq p env st (by rw [hf, habs]; rfl)
  have hspec := flickDragEnd_spec p env st
  rw [heq]
  exact ⟨rfl, hspec.1, hspec.2.1, hspec.2.2⟩

/-- C3 witness: a concrete flick-enabled drag-end with sampled speed 1. -/
theorem c3_flick_priority_witness :
    onDragEnd pDrag envA stA = flickDragEnd pDrag envA stA ∧
    (onDragEnd pDrag envA stA).state.maxHeight = some (JSNum.fin 600) := by
  have h := c3_flick_priority pDrag envA stA rfl (by with_unfolding_all rfl)
  exact ⟨h.1, h.2.2.2⟩

/-- C7: on a drag-end flick with positive speed, `onResized(startHeight,
startTop)` is called immediately with the drag-start snapshot (then the
flick-down handler runs), the state is untouched, and a restore of
`startHeight` is scheduled after `animation-duration * 1000 + 50` ms
exactly when the flick-down handler returns true. -/
theorem c7_flick_down_restore (p : RPProps) (env : Env) (st : RPState)
    (hf : p.onFlickDown = true) (hr : p.onResized = true)
    (habs : st.lastDragInfo.speed.abs.gt (JSNum.fin (1/2)) = true)
    (hpos : st.lastDragInfo.speed.gt (JSNum.fin 0) = true) :
    (onDragEnd p env st).events =
      [RPEvent.resized st.startHeight st.startTop true, RPEvent.flickDownCall] ∧
    (onDragEnd p env st).timers =
      (if p.flickDownResult then [(delayTime env, RPTask.setHeightNum st.startHeight)] else []) ∧
    (onDragEnd p env st).state = st := by
  have heq : onDragEnd p env st = flickDragEnd p env st :=
    onDragEnd_flick_eq p env st (by rw [hf, habs]; rfl)
  have hnlt := jsnum_not_lt_zero_of_gt_zero _ hpos
  rw [heq]
  simp only [flickDragEnd, hnlt, hr, Bool.false_eq_true, if_false, if_true]
  split_ifs <;> simp

/-- C7 witness: concrete flick-down with speed 1, flick-down handler
returning true, animation duration 0.25s (delay 300ms). -/
theorem c7_flick_down_restore_witness :
    (onDragEnd pDrag envA stA).events =
      [RPEvent.resized (JSNum.fin 300) (JSNum.fin 400) true, RPEvent.flickDownCall] ∧
    (onDragEnd pDrag envA stA).timers =
      [(JSNum.fin 300, RPTask.setHeightNum (JSNum.fin 300))] := by
  have h := c7_flick_down_restore pDrag envA stA rfl rfl
    (by with_unfolding_all rfl) (by with_unfolding_all rfl)
  refine ⟨h.1, ?_⟩
  rw [h.2.1]
  with_unfolding_all rfl

/-- C10: if, during a flick-enabled drag, a move carries a displacement
different from the last sample but the same millisecond timestamp, the
recorded speed is the displacement difference divided by zero — an
infinity whose magnitude exceeds the 0.5 threshold — so any subsequent
drag-end necessarily takes the flick branch. -/
theorem c10_zero_dt_forces_flick (p : RPProps) (env : Env) (st : RPState) (a b t : ℚ)
    (hf : p.onFlickDown = true)
    (hd : st.lastDragInfo.dragged = JSNum.fin b)
    (ht : st.lastDragInfo.time = JSNum.fin t)
    (hnow : env.now = JSNum.fin t)
    (hab : a ≠ b) :
    (onDrag p env st (JSNum.fin a)).state.lastDragInfo.speed = JSNum.inf (decide (b < a)) ∧
    (onDrag p env st (JSNum.fin a)).state.lastDragInfo.speed.abs.gt (JSNum.fin (1/2)) = true ∧
    ∀ env2, onDragEnd p env2 (onDrag p env st (JSNum.fin a)).state =
      flickDragEnd p env2 (onDrag p env st (JSNum.fin a)).state := by
  have hld : (onDrag p env st (JSNum.fin a)).state.lastDragInfo =
      (updateVelocity p env st (JSNum.fin a)).lastDragInfo :=
    (applyDragHeight_fields p env (updateVelocity p env st (JSNum.fin a)) (JSNum.fin a)).2.2.2.1
  have hne : JSNum.sub (JSNum.fin a) (JSNum.fin b) ≠ JSNum.fin 0 := by
    intro hcon
    exact hab (by linarith [JSNum.fin.inj hcon])
  have htt : JSNum.sub (JSNum.fin t) (JSNum.fin t) = JSNum.fin 0 := by
    show JSNum.fin (t - t) = JSNum.fin 0
    rw [sub_self]
  have hdiv : (JSNum.sub (JSNum.fin a) (JSNum.fin b)).div (JSNum.fin 0) =
      JSNum.inf (decide (b < a)) := by
    show (if (0 : ℚ) = 0 then
        (if a - b = 0 then JSNum.nan else JSNum.inf (decide (0 < a - b)))
      else JSNum.fin ((a - b) / 0)) = JSNum.inf (decide (b < a))
    rw [if_pos rfl, if_neg (sub_ne_zero.mpr hab)]
    congr 1
    exact decide_eq_decide.mpr sub_pos
  have huv : (updateVelocity p env st (JSNum.fin a)).lastDragInfo =
      ⟨JSNum.fin a, env.now, JSNum.inf (decide (b < a))⟩ := by
    simp only [updateVelocity, hf, hd, ht, hnow, if_true]
    rw [if_pos hne]
    simp only [htt, hdiv]
  have hspeed : (onDrag p env st (JSNum.fin a)).state.lastDragInfo.speed =
      JSNum.inf (decide (b < a)) := by
    rw [hld, huv]
  have hgt : (onDrag p env st (JSNum.fin a)).state.lastDragInfo.speed.abs.gt
      (JSNum.fin (1/2)) = true := by
    rw [hspeed]; rfl
  refine ⟨hspeed, hgt, ?_⟩
  intro env2
  exact onDragEnd_flick_eq p env2 _ (by rw [hf, hgt]; rfl)

/-- C10 witness: two samples 0 and 10 at the same timestamp 5 give
speed +Infinity, above the flick threshold. -/
theorem c10_zero_dt_forces_flick_witness :
    (onDrag pDrag envB stB (JSNum.fin 10)).state.lastDragInfo.speed = JSNum.inf true ∧
    (onDrag pDrag envB stB (JSNum.fin 10)).state.lastDragInfo.speed.abs.gt
      (JSNum.fin (1/2)) = true := by
  have h := c10_zero_dt_forces_flick pDrag envB stB 10 0 5 rfl rfl rfl rfl (by norm_num)
  refine ⟨?_, h.2.1⟩
  rw [h.1]
  with_unfolding_all rfl

/-- C1 witness: start height 300, displacement 100, minimum 40: height
becomes 200 and `onResizing` fires with the live top. -/
theorem c1_onDrag_clamp_invariant_witness :
    (onDrag pDrag envA stA (JSNum.fin 100)).state.height =
      some (HeightVal.num (JSNum.fin 200)) ∧
    (onDrag pDrag envA stA (JSNum.fin 100)).events =
      [RPEvent.resizing (JSNum.fin 500)] := by
  have h := (c1_onDrag_clamp_invariant pDrag envA stA (JSNum.fin 100)
    (by decide) rfl rfl).1.1 (by with_unfolding_all rfl)
  have hsub : stA.startHeight.sub (JSNum.fin 100) = JSNum.fin 200 := by
    with_unfolding_all rfl
  rw [hsub] at h
  exact h

/-- C8 counterexample: on a window resize with current `maxHeight` 400,
viewport bound 600, content-derived height 550 and `maxHeight` prop
500, the code leaves `maxHeight` at 400, while the claimed three-way
minimum recomputation would give 500. -/
theorem c8_counterexample_no_three_way_min :
    (rpOnWindowResize envC8 stC8).maxHeight = some (JSNum.fin 400) ∧
    updateMaxHeightVal pC8 envC8 (getOptimalHeight envC8) = JSNum.fin 500 ∧
    (rpOnWindowResize envC8 stC8).maxHeight ≠
      some (updateMaxHeightVal pC8 envC8 (getOptimalHeight envC8)) := by
  have h1 : (rpOnWindowResize envC8 stC8).maxHeight = some (JSNum.fin 400) := by
    with_unfolding_all rfl
  have h2 : updateMaxHeightVal pC8 envC8 (getOptimalHeight envC8) = JSNum.fin 500 := by
    with_unfolding_all rfl
  refine ⟨h1, h2, ?_⟩
  rw [h1, h2]
  decide

/-- C8 amended: on a window resize, `ResizablePanel` only lowers
`maxHeight` to the viewport-derived bound when it currently exceeds it
(no recomputation from content or the `maxHeight` prop, and no height
change); independently, when the panel is open,
`ResizableBottomPanel.onWindowResize` schedules the resize handlers to
re-fire after a fixed 500ms settle delay. -/
theorem c8_amended_clamp_and_refire (env : Env) (st : RPState) (m : JSNum)
    (p : RBPWProps) (wenv : RBPWEnv) (calcInit maxH : Option JSNum)
    (hm : st.maxHeight = some m) (hopen : p.isOpen = true)
    (hmp : p.maxHeightProp = none) (href : wenv.refAttached = true) :
    (rpOnWindowResize env st).maxHeight =
      some (if m.gt (viewportBound env) then viewportBound env else m) ∧
    (rpOnWindowResize env st).height = st.height ∧
    (rbpOnWindowResize p wenv calcInit maxH).2.1 = some wenv.styleMaxHeight ∧
    (rbpOnWindowResize p wenv calcInit maxH).2.2 =
      [((JSNum.fin 500 : JSNum), RBPTask.fireResizedHandler)] := by
  refine ⟨?_, ?_, ?_, ?_⟩
  · simp only [rpOnWindowResize, hm]
    split_ifs <;> simp [hm]
  · simp only [rpOnWindowResize, hm]
    split_ifs <;> rfl
  · simp only [rbpOnWindowResize, hmp, href, Option.isNone_none, Bool.and_self]
    rfl
  · simp only [rbpOnWindowResize, hopen]
    rfl

/-- C8 amended witness: `maxHeight` 650 above the viewport bound 600 is
clamped to 600; with no `maxHeight` prop the wrapper refreshes its
`maxHeight` state from the computed style (620); an open panel
schedules the 500ms re-fire. -/
theorem c8_amended_clamp_and_refire_witness :
    (rpOnWindowResize envC8 stW8).maxHeight = some (JSNum.fin 600) ∧
    (rbpOnWindowResize pW8 wenvW8 none none).2.1 = some (JSNum.fin 620) ∧
    (rbpOnWindowResize pW8 wenvW8 none none).2.2 =
      [((JSNum.fin 500 : JSNum), RBPTask.fireResizedHandler)] := by
  have h := c8_amended_clamp_and_refire envC8 stW8 (JSNum.fin 650) pW8 wenvW8
    none none rfl rfl rfl rfl
  refine ⟨?_, h.2.2.1, h.2.2.2⟩
  rw [h.1]
  with_unfolding_all rfl

/-- C9 counterexample: with the ref absent for the whole gesture
(`divAttached = false` throughout, no snapshot ever taken), a
fast-enough drag still reaches the flick branch of `onDragEnd`, which
calls `onResized(startHeight, startTop)` — so a drag-end with
unmeasurable geometry is not always a no-op with no `onResized` call. -/
theorem c9_counterexample_flick_without_ref :
    envC9b.divAttached = false ∧ st2C9.startHeight = JSNum.fin 0 ∧
    (onDragEnd pC9 envC9b st2C9).events =
      [RPEvent.resized (JSNum.fin 0) (JSNum.fin 0) true, RPEvent.flickDownCall] := by
  refine ⟨rfl, ?_, ?_⟩ <;> with_unfolding_all rfl

/-- C9 amended: with the ref absent and no `startHeight` snapshot,
drag-start and drag change no height, `maxHeight` or snapshot and
invoke no callback; a drag-end that does not take the flick branch is a
complete no-op.  (The flick branch reads no geometry and can still set
the height or call `onResized`.) -/
theorem c9_amended_noop_without_ref (p : RPProps) (env : Env) (st : RPState) (d : JSNum)
    (hdiv : env.divAttached = false) (hstart : st.startHeight = JSNum.fin 0)
    (hnof : (p.onFlickDown && st.lastDragInfo.speed.abs.gt (JSNum.fin (1/2))) = false) :
    ((onDragStart p env st).height = st.height ∧
      (onDragStart p env st).maxHeight = st.maxHeight ∧
      (onDragStart p env st).startHeight = st.startHeight ∧
      (onDragStart p env st).startTop = st.startTop) ∧
    ((onDrag p env st d).state.height = st.height ∧
      (onDrag p env st d).state.maxHeight = st.maxHeight ∧
      (onDrag p env st d).events = []) ∧
    onDragEnd p env st = ⟨st, [], []⟩ := by
  refine ⟨?_, ?_, ?_⟩
  · unfold onDragStart
    rw [hdiv]
    split_ifs <;> simp_all
  · have hv := updateVelocity_fields p env st d
    have h0 : (updateVelocity p env st d).startHeight.toBool = false := by
      rw [hv.2.1, hstart]; rfl
    have happ : applyDragHeight p env (updateVelocity p env st d) d =
        (updateVelocity p env st d, []) := by
      simp [applyDragHeight, h0]
    refine ⟨?_, ?_, ?_⟩
    · show (applyDragHeight p env (updateVelocity p env st d) d).1.height = st.height
      rw [happ]; exact hv.1
    · show (applyDragHeight p env (updateVelocity p env st d) d).1.maxHeight = st.maxHeight
      rw [happ]; exact hv.2.2.2.1
    · show (applyDragHeight p env (updateVelocity p env st d) d).2 = []
      rw [happ]
  · unfold onDragEnd
    rw [hnof]
    show ordinaryDragEnd p env st = ⟨st, [], []⟩
    unfold ordinaryDragEnd
    rw [hdiv]
    rfl

/-- C9 amended witness: no callbacks, ref absent, pristine state: all
three handlers are no-ops. -/
theorem c9_amended_noop_without_ref_witness :
    onDragStart pW9 envC9a st0C9 = st0C9 ∧
    (onDrag pW9 envC9a st0C9 (JSNum.fin 5)).events = [] ∧
    onDragEnd pW9 envC9a st0C9 = ⟨st0C9, [], []⟩ := by
  have h := c9_amended_noop_without_ref pW9 envC9a st0C9 (JSNum.fin 5) rfl rfl rfl
  exact ⟨rfl, h.2.1.2.2, h.2.2⟩

/-- C6: with `onAutoClose` configured and a resize completing while the
panel is open at a height at or below `autoCloseHeight` (default 110),
the auto-close callback is invoked in place of the host's `onResized`,
the `autoClosed` flag is set, the next `onClose` notification is
suppressed (and the flag cleared by it), and a subsequent close
notifies normally. -/
theorem c6_auto_close_suppression (p : RBPProps) (st : RBPState) (h top ch ch2 : JSNum)
    (hopen : p.isOpen = true) (hac : p.onAutoClose = true)
    (hle : h.le (effAutoCloseHeight p) = true) (hcl : p.onClose = true) :
    (onResizedHandler p st h top).2.1 =
      [RBPEvent.emitResize h top, RBPEvent.callAutoClose] ∧
    (onResizedHandler p st h top).2.2 = p.autoCloseResult ∧
    (∀ a b, RBPEvent.callHostResized a b ∉ (onResizedHandler p st h top).2.1) ∧
    (onResizedHandler p st h top).1.autoClosed = true ∧
    onCloseHandler p (onResizedHandler p st h top).1 ch = (⟨false⟩, []) ∧
    onCloseHandler p ⟨false⟩ ch2 = (⟨false⟩, [RBPEvent.callHostClose ch2]) := by
  have hres : onResizedHandler p st h top =
      ({ st with autoClosed := true },
        [RBPEvent.emitResize h top, RBPEvent.callAutoClose], p.autoCloseResult) := by
    simp [onResizedHandler, onAutoCloseHandler, hopen, hac, hle]
  rw [hres]
  refine ⟨rfl, rfl, ?_, rfl, ?_, ?_⟩
  · intro a b hmem
    simp at hmem
  · simp [onCloseHandler]
  · simp [onCloseHandler, hcl]

/-- C6 witness: default threshold 110, resize to 100 while open:
auto-close runs, the first close is silent, the second notifies. -/
theorem c6_auto_close_suppression_witness :
    (onResizedHandler pW6 ⟨false⟩ (JSNum.fin 100) (JSNum.fin 20)).2.1 =
      [RBPEvent.emitResize (JSNum.fin 100) (JSNum.fin 20), RBPEvent.callAutoClose] ∧
    onCloseHandler pW6 (onResizedHandler pW6 ⟨false⟩ (JSNum.fin 100) (JSNum.fin 20)).1
      (JSNum.fin 100) = (⟨false⟩, []) ∧
    onCloseHandler pW6 ⟨false⟩ (JSNum.fin 120) =
      (⟨false⟩, [RBPEvent.callHostClose (JSNum.fin 120)]) := by
  have h := c6_auto_close_suppression pW6 ⟨false⟩ (JSNum.fin 100) (JSNum.fin 20)
    (JSNum.fin 100) (JSNum.fin 120) rfl rfl (by decide) rfl
  exact ⟨h.1, h.2.2.2.2.1, h.2.2.2.2.2⟩

/-- Once a drag has started (`lastPosition` established), further moves
never fire drag-start and leave `lastPosition` in place. -/
theorem runMoves_locked (lp : Pt) : ∀ (moves : List (Nat × Pt)) (st : DragHandleState),
    st.lastPosition = some lp →
    (runMoves st moves).1.lastPosition = some lp ∧
    List.countP isStartEv (runMoves st moves).2 = 0 := by
  intro moves
  induction moves with
  | nil => intro st hlp; simp [runMoves, hlp]
  | cons m ms ih =>
    intro st hlp
    have hstep : (onTouchMove st m.1 m.2).1 = st ∧
        List.countP isStartEv (onTouchMove st m.1 m.2).2 = 0 := by
      unfold onTouchMove isTouchStarted handlePointerMove
      rw [hlp]
      split_ifs <;> simp [isStartEv]
    have hrec := ih (onTouchMove st m.1 m.2).1 (by rw [hstep.1]; exact hlp)
    constructor
    · show (runMoves (onTouchMove st m.1 m.2).1 ms).1.lastPosition = some lp
      exact hrec.1
    · show List.countP isStartEv
        ((onTouchMove st m.1 m.2).2 ++ (runMoves (onTouchMove st m.1 m.2).1 ms).2) = 0
      rw [List.countP_append, hstep.2, hrec.2]

/-- From a fresh session state (initial point recorded, no
`lastPosition`, pointer down), drag-start fires at most once, fires
exactly once iff some single-touch move is at squared distance at least
36 from the initial point, and once fired `lastPosition` is the initial
point. -/
theorem runMoves_fresh (p0 : Pt) : ∀ (moves : List (Nat × Pt)),
    (∀ m ∈ moves, m.1 = 1) →
    List.countP isStartEv (runMoves ⟨some p0, none, true⟩ moves).2 ≤ 1 ∧
    (List.countP isStartEv (runMoves ⟨some p0, none, true⟩ moves).2 = 1 ↔
      ∃ m ∈ moves, distSq m.2 p0 ≥ 36) ∧
    (List.countP isStartEv (runMoves ⟨some p0, none, true⟩ moves).2 = 1 →
      (runMoves ⟨some p0, none, true⟩ moves).1.lastPosition = some p0) := by
  intro moves
  induction moves with
  | nil => intro _; simp [runMoves]
  | cons m ms ih =>
    intro hsingle
    have hm1 : m.1 = 1 := hsingle m (List.mem_cons_self m ms)
    have hms : ∀ x ∈ ms, x.1 = 1 := fun x hx => hsingle x (List.mem_cons_of_mem m hx)
    by_cases hdist : distSq m.2 p0 ≥ 36
    · have hstep : onTouchMove ⟨some p0, none, true⟩ m.1 m.2 =
          (⟨some p0, some p0, true⟩, [DragEv.dragStart p0]) := by
        unfold onTouchMove isTouchStarted handlePointerMove
        rw [hm1]
        simp [hdist]
      have hrest := runMoves_locked p0 ms ⟨some p0, some p0, true⟩ rfl
      have hrm : runMoves ⟨some p0, none, true⟩ (m :: ms) =
          ((runMoves ⟨some p0, some p0, true⟩ ms).1,
            [DragEv.dragStart p0] ++ (runMoves ⟨some p0, some p0, true⟩ ms).2) := by
        simp [runMoves, hstep]
      rw [hrm]
      have hcount : List.countP isStartEv
          ([DragEv.dragStart p0] ++ (runMoves ⟨some p0, some p0, true⟩ ms).2) = 1 := by
        rw [List.countP_append, hrest.2]
        simp [isStartEv]
      refine ⟨by rw [hcount], ?_, fun _ => hrest.1⟩
      rw [hcount]
      simp only [true_iff]
      exact ⟨m, List.mem_cons_self m ms, hdist⟩
    · have hstep : onTouchMove ⟨some p0, none, true⟩ m.1 m.2 =
          (⟨some p0, none, true⟩, []) := by
        unfold onTouchMove isTouchStarted handlePointerMove
        rw [hm1]
        simp [hdist]
      have hrm : runMoves ⟨some p0, none, true⟩ (m :: ms) =
          runMoves ⟨some p0, none, true⟩ ms := by
        simp [runMoves, hstep]
      rw [hrm]
      have ihh := ih hms
      refine ⟨ihh.1, ?_, ihh.2.2⟩
      rw [ihh.2.1]
      constructor
      · rintro ⟨x, hx, hdx⟩
        exact ⟨x, List.mem_cons_of_mem m hx, hdx⟩
      · rintro ⟨x, hx, hdx⟩
        rcases List.mem_cons.mp hx with heq | hx2
        · rw [heq] at hdx
          exact absurd hdx hdist
        · exact ⟨x, hx2, hdx⟩

/-- C4: in a touch session (single-touch pointer-down recorded at
`p0`, no `lastPosition`), drag-start fires at most once over any
sequence of single-touch moves; it fires exactly once iff some move is
at Euclidean distance at least 6 (squared distance at least 36) from
the initial point; and once it fires, `lastPosition` is established as
`p0`, so later moves take the `onDrag` path. -/
theorem c4_drag_start_threshold (p0 : Pt) (moves : List (Nat × Pt))
    (hsingle : ∀ m ∈ moves, m.1 = 1) :
    List.countP isStartEv (runMoves ⟨some p0, none, true⟩ moves).2 ≤ 1 ∧
    (List.countP isStartEv (runMoves ⟨some p0, none, true⟩ moves).2 = 1 ↔
      ∃ m ∈ moves, distSq m.2 p0 ≥ 36) ∧
    (List.countP isStartEv (runMoves ⟨some p0, none, true⟩ moves).2 = 1 →
      (runMoves ⟨some p0, none, true⟩ moves).1.lastPosition = some p0) :=
  runMoves_fresh p0 moves hsingle

/-- C4 witness: moves at distances 3, 10 and beyond: drag-start fires
exactly once and `lastPosition` becomes the initial point. -/
theorem c4_drag_start_threshold_witness :
    List.countP isStartEv (runMoves ⟨some p0W4, none, true⟩ movesW4).2 = 1 ∧
    (runMoves ⟨some p0W4, none, true⟩ movesW4).1.lastPosition = some p0W4 := by
  have h := c4_drag_start_threshold p0W4 movesW4 (by decide)
  have hex : ∃ m ∈ movesW4, distSq m.2 p0W4 ≥ 36 := by
    refine ⟨(1, ⟨0, 10⟩), by decide, ?_⟩
    show distSq ⟨0, 10⟩ p0W4 ≥ 36
    with_unfolding_all decide
  have h1 := h.2.1.mpr hex
  exact ⟨h1, h.2.2 h1⟩

/-- Unrolling the event-loop fold: the synchronous output extends with
the close emissions, the timer queue with the open emissions. -/
theorem effStep_foldl (effs : List PanelEff) : ∀ s d : List GlobalEvent,
    effs.foldl effStep (s, d) = (s ++ syncEvents effs, d ++ deferredEvents effs) := by
  induction effs with
  | nil => intro s d; simp [syncEvents, deferredEvents]
  | cons e es ih =>
    intro s d
    simp only [List.foldl_cons, syncEvents, deferredEvents]
    by_cases hoe : e.isOpenEff = true
    · cases hov : openEmit e with
      | none => simp [effStep, hoe, hov, ih s d]
      | some ev => simp [effStep, hoe, hov, ih s (d ++ [ev]), List.append_assoc]
    · cases hcv : closeEmit e with
      | none => simp [effStep, hoe, hcv, ih s d]
      | some ev => simp [effStep, hoe, hcv, ih (s ++ [ev]) d, List.append_assoc]

/-- One pass is its synchronous emissions followed by its deferred
ones. -/
theorem runPass_eq (effs : List PanelEff) :
    runPass effs = syncEvents effs ++ deferredEvents effs := by
  unfold runPass
  rw [effStep_foldl effs [] []]
  simp

/-- A close effect only emits closed events. -/
theorem closeEmit_closed (e : PanelEff) (ev : GlobalEvent) (h : closeEmit e = some ev) :
    isClosedEv ev = true := by
  unfold closeEmit at h
  split_ifs at h
  · cases hot : e.oldTop with
    | some t =>
      rw [hot] at h
      injection h with h2
      rw [← h2]
      rfl
    | none =>
      rw [hot] at h
      cases h

/-- An open effect only emits opened events. -/
theorem openEmit_opened (e : PanelEff) (ev : GlobalEvent) (h : openEmit e = some ev) :
    isOpenedEv ev = true := by
  unfold openEmit at h
  split_ifs at h
  · cases hot : e.oldTop with
    | some t =>
      rw [hot] at h
      injection h with h2
      rw [← h2]
      rfl
    | none =>
      rw [hot] at h
      cases h

/-- Every synchronous emission of a pass is a closed event. -/
theorem syncEvents_all_closed (effs : List PanelEff) :
    ∀ ev ∈ syncEvents effs, isClosedEv ev = true := by
  induction effs with
  | nil => simp [syncEvents]
  | cons e es ih =>
    intro ev hev
    simp only [syncEvents] at hev
    rcases List.mem_append.mp hev with h1 | h2
    · by_cases hoe : e.isOpenEff = true
      · rw [if_pos hoe] at h1
        cases h1
      · rw [if_neg hoe] at h1
        cases hcv : closeEmit e with
        | none => rw [hcv] at h1; cases h1
        | some x =>
          rw [hcv] at h1
          simp [Option.toList] at h1
          rw [h1]
          exact closeEmit_closed e x hcv
    · exact ih ev h2

/-- Every deferred emission of a pass is an opened event. -/
theorem deferredEvents_all_opened (effs : List PanelEff) :
    ∀ ev ∈ deferredEvents effs, isOpenedEv ev = true := by
  induction effs with
  | nil => simp [deferredEvents]
  | cons e es ih =>
    intro ev hev
    simp only [deferredEvents] at hev
    rcases List.mem_append.mp hev with h1 | h2
    · by_cases hoe : e.isOpenEff = true
      · rw [if_pos hoe] at h1
        cases hov : openEmit e with
        | none => rw [hov] at h1; cases h1
        | some x =>
          rw [hov] at h1
          simp [Option.toList] at h1
          rw [h1]
          exact openEmit_opened e x hov
      · rw [if_neg hoe] at h1
        cases h1
    · exact ih ev h2

/-- C5: in the events observed from one synchronous pass, every global
closed event (emitted synchronously by a close transition) precedes
every global opened event (deferred through a zero-delay timer by an
open transition), whatever order the effects ran in. -/
theorem c5_close_observed_before_open (effs : List PanelEff) (i j : Nat)
    (ec eo : GlobalEvent)
    (hc : (runPass effs)[i]? = some ec) (ho : (runPass effs)[j]? = some eo)
    (hcc : isClosedEv ec = true) (hoo : isOpenedEv eo = true) : i < j := by
  rw [runPass_eq] at hc ho
  have hi : i < (syncEvents effs).length := by
    by_contra hge
    push_neg at hge
    rw [List.getElem?_append_right hge] at hc
    have hmem : ec ∈ deferredEvents effs := List.getElem?_mem hc
    have := deferredEvents_all_opened effs ec hmem
    cases ec <;> simp_all [isClosedEv, isOpenedEv]
  have hj : (syncEvents effs).length ≤ j := by
    by_contra hlt
    push_neg at hlt
    rw [List.getElem?_append_left hlt] at ho
    have hmem : eo ∈ syncEvents effs := List.getElem?_mem ho
    have := syncEvents_all_closed effs eo hmem
    cases eo <;> simp_all [isClosedEv, isOpenedEv]
  omega

/-- C5 witness: a pass in which panel B's open effect runs before panel
A's close effect still yields the closed event at index 0 and the
opened event at index 1. -/
theorem c5_close_observed_before_open_witness :
    runPass effsW5 =
      [GlobalEvent.panelClosed 0 (JSNum.fin 200) (JSNum.fin 500),
        GlobalEvent.panelOpened 1 (JSNum.fin 150) (JSNum.fin 490)] ∧
    (0 : Nat) < 1 := by
  constructor
  · with_unfolding_all rfl
  · exact c5_close_observed_before_open effsW5 0 1
      (GlobalEvent.panelClosed 0 (JSNum.fin 200) (JSNum.fin 500))
      (GlobalEvent.panelOpened 1 (JSNum.fin 150) (JSNum.fin 490))
      (by with_unfolding_all rfl) (by with_unfolding_all rfl) rfl rfl
